import Mathlib

/-!
Shallow embedding of the conversational-request orchestration layer of
`src/services/geminiService.ts` (together with the data model of
`src/types.ts`).

JavaScript strings are modelled as `List Char` (`JStr`); `undefined`-able
strings as `Option JStr`, with JS truthiness of a string being
"present and non-empty".  The asynchronous provider SDK is modelled as an
environment (`Env`) holding the result each provider call would produce,
and `sendMessageToGemini` additionally returns the ordered trace of
provider calls it issued, so that "no network call attempted" is a
provable statement.
-/

namespace GeminiService

/-- JavaScript string, modelled as a list of characters. -/
abbrev JStr := List Char

/-- `String.prototype.startsWith`: does `s` start with `p`? -/
def strStarts (p s : JStr) : Bool :=
  match p, s with
  | [], _ => true
  | _ :: _, [] => false
  | a :: p', b :: s' => a == b && strStarts p' s'

/-- `String.prototype.includes`: does `hay` contain `sub` as a contiguous
substring? -/
def strHas (sub : JStr) : JStr → Bool
  | [] => sub.isEmpty
  | c :: rest => strStarts sub (c :: rest) || strHas sub rest

/-- `String.prototype.toLowerCase`, character-wise (ASCII case folding,
which covers every character occurring in the trigger phrases). -/
def jsToLower (s : JStr) : JStr := s.map Char.toLower

/-- `String.prototype.trim`: strip leading and trailing whitespace. -/
def jsTrim (s : JStr) : JStr :=
  ((s.dropWhile Char.isWhitespace).reverse.dropWhile Char.isWhitespace).reverse

/-- JS truthiness of a `string | undefined` value: present and non-empty. -/
def jsTruthy : Option JStr → Bool
  | none => false
  | some s => !s.isEmpty

/-- The trigger-phrase list of `isImageGenerationRequest`
(src/services/geminiService.ts, lines 25-28). -/
def keywords : List JStr :=
  [ "ارسم".toList, "رسم".toList, "صورة".toList, "تخيل".toList,
    "أنشئ صورة".toList, "انشئ صورة".toList,
    "draw".toList, "generate image".toList, "create image".toList,
    "picture of".toList, "image of".toList ]

/-- `isImageGenerationRequest` (src/services/geminiService.ts, lines 23-30):
lowercase the prompt, and test whether the trimmed result starts with one
of the trigger phrases. -/
def isImageGenerationRequest (text : JStr) : Bool :=
  let lower := jsToLower text
  keywords.any (fun keyword => strStarts keyword (jsTrim lower))

/-- `MessageRole` of src/types.ts: `USER = 'user'`, `MODEL = 'model'`
(the spec calls the second role "assistant"). -/
inductive MessageRole
  | user
  | model
deriving DecidableEq, Repr

/-- `ChatMessage` of src/types.ts.  `image` is an optional base64 data-URI
string; `isGeneratedImage` flags provider-generated images (an absent TS
field behaves as `false` under the code's truthiness tests). -/
structure ChatMessage where
  id : JStr
  role : MessageRole
  text : JStr
  image : Option JStr
  isGeneratedImage : Bool
deriving DecidableEq, Repr

/-- The payload of an inline-image content part sent to the provider. -/
structure InlineData where
  data : JStr
  mimeType : JStr
deriving DecidableEq, Repr

/-- A content part of a provider request: `{ text }` or `{ inlineData }`. -/
inductive Part
  | text (t : JStr)
  | inlineData (d : InlineData)
deriving DecidableEq, Repr

/-- One role-tagged entry of the provider request's `contents` array. -/
structure Content where
  role : JStr
  parts : List Part
deriving DecidableEq, Repr

/-- A content part of a provider *response*; the code only ever inspects
its `inlineData` field. -/
structure RespPart where
  inlineData : Option InlineData
deriving DecidableEq, Repr

/-- `candidates[0].content` of a provider response. -/
structure GenContent where
  parts : Option (List RespPart)
deriving DecidableEq, Repr

/-- One element of `candidates` of a provider response. -/
structure GenCandidate where
  content : Option GenContent
deriving DecidableEq, Repr

/-- A provider response: the optional `candidates` array and the derived
`text` accessor. -/
structure GenResponse where
  candidates : Option (List GenCandidate)
  text : Option JStr
deriving DecidableEq, Repr

/-- A rejected provider promise: an error value with an optional
human-readable `message`. -/
structure JSError where
  message : Option JStr
deriving DecidableEq, Repr

/-- The outcome of `sendMessageToGemini`:
`{ text: string; generatedImage?: string }`. -/
structure Outcome where
  text : JStr
  generatedImage : Option JStr
deriving DecidableEq, Repr

/-- A record of one `ai.models.generateContent` invocation: the image-model
call carries a single parts object, the conversational call a full
contents array. -/
inductive ProviderCall
  | imageGen (model : JStr) (parts : List Part)
  | chatGen (model : JStr) (contents : List Content)
deriving DecidableEq, Repr

/-- The environment `sendMessageToGemini` runs in: the build-time
credential, whether the `GoogleGenAI` client was constructed, and the
result each provider call would produce if issued. -/
structure Env where
  apiKey : Option JStr
  aiReady : Bool
  imageGenResult : Except JSError GenResponse
  chatResult : Except JSError GenResponse

/-- The conversational model identifier (line 48). -/
def modelName : JStr := "gemini-3-flash-preview".toList

/-- The image-capable model identifier (line 57). -/
def imageModelName : JStr := "gemini-2.5-flash-image".toList

/-- The canonical data-URI header re-added to generated images (line 69). -/
def pngHeader : JStr := "data:image/png;base64,".toList

/-- The headers matched (in alternation order) by the regex
`/^data:image\/(png|jpeg|jpg|webp);base64,/` on lines 91 and 115. -/
def dataUriHeaders : List JStr :=
  [ "data:image/png;base64,".toList, "data:image/jpeg;base64,".toList,
    "data:image/jpg;base64,".toList, "data:image/webp;base64,".toList ]

/-- `s.replace(/^data:image\/(png|jpeg|jpg|webp);base64,/, '')`: drop the
first matching anchored header, if any. -/
def stripDataUri (s : JStr) : JStr :=
  match dataUriHeaders.find? (fun p => strStarts p s) with
  | some p => s.drop p.length
  | none => s

/-- The history-flattening step (lines 86-109): one `ChatMessage` becomes
one role-tagged entry — an image part first (only for a truthy image not
flagged as generated, with the data-URI header stripped and the media type
hard-coded to `image/jpeg`), then a text part (only for non-empty text). -/
def buildHistoryEntry (msg : ChatMessage) : Content :=
  let imageParts : List Part :=
    if jsTruthy msg.image && !msg.isGeneratedImage then
      [Part.inlineData ⟨stripDataUri (msg.image.getD []), "image/jpeg".toList⟩]
    else []
  let textParts : List Part :=
    if !msg.text.isEmpty then [Part.text msg.text] else []
  { role := match msg.role with
      | MessageRole.user => "user".toList
      | MessageRole.model => "model".toList
    parts := imageParts ++ textParts }

/-- `history.map(...).filter(content => content.parts.length > 0)`
(lines 86-109): flatten the history and drop zero-part entries. -/
def buildContents (history : List ChatMessage) : List Content :=
  (history.map buildHistoryEntry).filter (fun c => !c.parts.isEmpty)

/-- The current turn's entry (lines 111-129): optional prefix-stripped
image part, then an unconditional text part, under role "user". -/
def currentContent (prompt : JStr) (imageBase64 : Option JStr) : Content :=
  let currentParts : List Part :=
    (if jsTruthy imageBase64 then
      [Part.inlineData ⟨stripDataUri (imageBase64.getD []), "image/jpeg".toList⟩]
    else []) ++ [Part.text prompt]
  { role := "user".toList, parts := currentParts }

/-- The full `contents` array of the conversational request: flattened
history followed by the current turn. -/
def builtContents (prompt : JStr) (imageBase64 : Option JStr)
    (history : List ChatMessage) : List Content :=
  buildContents history ++ [currentContent prompt imageBase64]

/-- Fixed message texts of src/services/geminiService.ts. -/
def noKeyMsg : JStr :=
  "عذراً، مفتاح API غير موجود. يرجى التأكد من إضافة API_KEY في إعدادات النشر (Environment Variables) ثم إعادة البناء (Re-deploy).".toList

/-- The "client failed to initialize" message (line 45). -/
def initFailMsg : JStr := "عذراً، فشل تهيئة خدمة الذكاء الاصطناعي.".toList

/-- The fixed confirmation text of a generated-image outcome (line 68). -/
def imageConfirmMsg : JStr := "تم إنشاء الصورة بناءً على طلبك:".toList

/-- Fallback when the conversational response has no text (line 136). -/
def processFailMsg : JStr := "عذراً، لم أستطع معالجة الطلب.".toList

/-- Default error text when the error carries no message (line 142). -/
def connErrMsg : JStr := "حدث خطأ أثناء الاتصال بالخادم.".toList

/-- Error text for credential-related failures (line 146). -/
def invalidKeyMsg : JStr := "مفتاح API غير صالح أو غير مفعل. يرجى التحقق منه.".toList

/-- Error text for rate-limit (429) failures (line 148). -/
def quotaMsg : JStr := "تم تجاوز حد الطلبات (Quota Exceeded). يرجى المحاولة لاحقاً.".toList

/-- Error text for not-found (404) failures; interpolates the
conversational model identifier (line 150). -/
def notFoundMsg : JStr :=
  "الموديل غير متاح حالياً (".toList ++ modelName
    ++ ") أو المفتاح لا يملك صلاحية الوصول إليه.".toList

/-- Generic technical-error text carrying the raw message (line 152). -/
def techErrMsg (m : JStr) : JStr := "حدث خطأ تقني: ".toList ++ m

/-- The error-translation ladder of the outer catch (lines 138-157):
inspect `error.message` for known substrings in priority order. -/
def translateError (e : JSError) : JStr :=
  match e.message with
  | none => connErrMsg
  | some m =>
    if m.isEmpty then connErrMsg
    else if strHas ("API key".toList) m then invalidKeyMsg
    else if strHas ("429".toList) m then quotaMsg
    else if strHas ("404".toList) m then notFoundMsg
    else techErrMsg m

/-- One step of the scanning loop over returned parts (lines 62-74): the
value a response part contributes, if its `inlineData` exists and its
`data` is truthy. -/
def partImageData (p : RespPart) : Option JStr :=
  match p.inlineData with
  | some d => if !d.data.isEmpty then some d.data else none
  | none => none

/-- The in-order scan of `response.candidates[0].content.parts` for the
first inline-image part (lines 63-74). -/
def firstInline : List RespPart → Option JStr
  | [] => none
  | p :: rest =>
    match partImageData p with
    | some data => some data
    | none => firstInline rest

/-- The optional chain `response.candidates?.[0]?.content?.parts`
(line 62). -/
def respPartsOf (r : GenResponse) : Option (List RespPart) :=
  match r.candidates with
  | none => none
  | some cs =>
    match cs.head? with
    | none => none
    | some c =>
      match c.content with
      | none => none
      | some ct => ct.parts

/-- The outcome of the part scan on an image-generation response: the
first inline-image `data`, when the parts chain exists and carries one. -/
def genScan (r : GenResponse) : Option JStr :=
  match respPartsOf r with
  | some ps => firstInline ps
  | none => none

/-- The conversational request and its normalization (lines 111-157):
build the contents array, issue the call, and map success to
`response.text` (or the fixed fallback) and failure through
`translateError`.  Returns the outcome together with the issued call. -/
def runChat (env : Env) (prompt : JStr) (imageBase64 : Option JStr)
    (history : List ChatMessage) : Outcome × ProviderCall :=
  let contents := builtContents prompt imageBase64 history
  let call := ProviderCall.chatGen modelName contents
  match env.chatResult with
  | Except.ok resp =>
    (⟨(if jsTruthy resp.text then resp.text.getD [] else processFailMsg), none⟩, call)
  | Except.error e => (⟨translateError e, none⟩, call)

/-- `sendMessageToGemini` (lines 32-158), as a pure function of the
environment: guard on the credential and the client, optionally attempt
the standalone image-generation request, and otherwise (or on its
failure) fall through to the conversational request.  The second
component is the ordered trace of provider calls issued. -/
def sendMessageToGemini (env : Env) (prompt : JStr) (imageBase64 : Option JStr)
    (history : List ChatMessage) : Outcome × List ProviderCall :=
  if !jsTruthy env.apiKey then (⟨noKeyMsg, none⟩, [])
  else if !env.aiReady then (⟨initFailMsg, none⟩, [])
  else if !jsTruthy imageBase64 && isImageGenerationRequest prompt then
    let genCall := ProviderCall.imageGen imageModelName [Part.text prompt]
    match env.imageGenResult with
    | Except.ok resp =>
      match genScan resp with
      | some data =>
        (⟨imageConfirmMsg, some (pngHeader ++ data)⟩, [genCall])
      | none =>
        if jsTruthy resp.text then (⟨resp.text.getD [], none⟩, [genCall])
        else
          let r := runChat env prompt imageBase64 history
          (r.1, [genCall, r.2])
    | Except.error _ =>
      let r := runChat env prompt imageBase64 history
      (r.1, [genCall, r.2])
  else
    let r := runChat env prompt imageBase64 history
    (r.1, [r.2])

/-! ## Concrete inputs used by the witness theorems -/

/-- An environment whose conversational call succeeds with text "ok" and
whose image-generation call fails. -/
def envC6 : Env :=
  ⟨some ("k".toList), true, Except.error ⟨none⟩, Except.ok ⟨none, some ("ok".toList)⟩⟩

/-- A provider response carrying one inline-image part with data "IMG7". -/
def respC7 : GenResponse :=
  ⟨some [⟨some ⟨some [⟨some ⟨"IMG7".toList, "image/png".toList⟩⟩]⟩⟩], none⟩

/-- An environment whose image-generation call succeeds with `respC7`. -/
def envC7 : Env :=
  ⟨some ("k".toList), true, Except.ok respC7, Except.ok ⟨none, some ("ok".toList)⟩⟩

/-- A provider-generated image turn with empty text. -/
def msgC8 : ChatMessage :=
  ⟨"a1".toList, MessageRole.model, [], some ("data:image/png;base64,XXXX".toList), true⟩

/-- A history turn carrying a user-supplied PNG upload and no text. -/
def msgC10 : ChatMessage :=
  ⟨"b2".toList, MessageRole.user, [], some ("data:image/png;base64,AAAA".toList), false⟩

/-- A provider response carrying one inline-image part with data "IMG9". -/
def respC9 : GenResponse :=
  ⟨some [⟨some ⟨some [⟨some ⟨"IMG9".toList, "image/png".toList⟩⟩]⟩⟩], none⟩

/-- An environment whose image-generation call succeeds with `respC9`. -/
def envC9 : Env :=
  ⟨some ("k".toList), true, Except.ok respC9, Except.ok ⟨none, some ("ok".toList)⟩⟩

/-! ## Helper lemmas -/

/-- Whatever the provider's answer, the conversational step issues exactly
one call to the conversational model with the flattened contents. -/
lemma runChat_snd (env : Env) (prompt : JStr) (imageBase64 : Option JStr)
    (history : List ChatMessage) :
    (runChat env prompt imageBase64 history).2
      = ProviderCall.chatGen modelName (builtContents prompt imageBase64 history) := by
  unfold runChat
  cases env.chatResult <;> rfl

/-- Filtering after mapping is mapping the filtered sub-sequence. -/
lemma filter_map_comm (f : ChatMessage → Content) (p : Content → Bool) :
    ∀ l : List ChatMessage, (l.map f).filter p = (l.filter (fun m => p (f m))).map f := by
  intro l
  induction l with
  | nil => rfl
  | cons a l ih => by_cases h : p (f a) <;> simp [List.filter_cons, h, ih]

/-- A non-empty needle is only found in a non-empty haystack. -/
lemma strHas_ne_nil (sub m : JStr) (hsub : sub.isEmpty = false)
    (h : strHas sub m = true) : m.isEmpty = false := by
  cases m with
  | nil =>
    exfalso
    rw [strHas] at h
    rw [h] at hsub
    exact Bool.noConfusion hsub
  | cons c rest => rfl

/-! ## Claim theorems -/

/-- C1: for every prompt, image and history, a falsy provider credential
(absent or empty) makes `sendMessageToGemini` return the fixed
"service not configured" outcome with an empty provider-call trace, so the
guard precedes the classifier, the image-generation attempt and the
history flattening. -/
theorem missingCredentialShortCircuits (env : Env) (prompt : JStr)
    (imageBase64 : Option JStr) (history : List ChatMessage)
    (hkey : jsTruthy env.apiKey = false) :
    sendMessageToGemini env prompt imageBase64 history = (⟨noKeyMsg, none⟩, []) := by
  simp [sendMessageToGemini, hkey]

/-- Witness for C1: the credential-absent environment at prompt "hello". -/
theorem missingCredentialShortCircuits_witness :
    jsTruthy (none : Option JStr) = false
    ∧ sendMessageToGemini ⟨none, false, Except.error ⟨none⟩, Except.error ⟨none⟩⟩
        ("hello".toList) none [] = (⟨noKeyMsg, none⟩, []) :=
  ⟨rfl, missingCredentialShortCircuits _ _ _ _ rfl⟩

/-- C5: a text-only prompt is classified as an image-generation request
iff its lowercased, trimmed form starts with one of the trigger phrases;
in particular a prompt that contains a trigger phrase only mid-string is
classified conversational. -/
theorem classifierPrefixCharacterization (text : JStr) :
    (isImageGenerationRequest text = true
      ↔ ∃ k ∈ keywords, strStarts k (jsTrim (jsToLower text)) = true)
    ∧ ((∃ k ∈ keywords, strHas k (jsTrim (jsToLower text)) = true) →
        (∀ k ∈ keywords, strStarts k (jsTrim (jsToLower text)) = false) →
        isImageGenerationRequest text = false) := by
  constructor
  · simp [isImageGenerationRequest, List.any_eq_true]
  · intro _ hall
    simp only [isImageGenerationRequest, Bool.eq_false_iff, ne_eq, List.any_eq_true,
      not_exists, not_and]
    intro k hk
    simp [hall k hk]

/-- Witness for C5: "please draw a cat" contains the trigger "draw"
mid-string but starts with no trigger, hence is conversational. -/
theorem classifierPrefixCharacterization_witness :
    isImageGenerationRequest ("please draw a cat".toList) = false :=
  (classifierPrefixCharacterization ("please draw a cat".toList)).2
    (by decide) (by decide)

/-- C6: with a truthy image attachment the turn is always routed
conversationally — the trace holds a single call to the conversational
model and no image-generation call, whatever the prompt says. -/
theorem attachmentAlwaysConversational (env : Env) (prompt : JStr)
    (imageBase64 : Option JStr) (history : List ChatMessage)
    (hkey : jsTruthy env.apiKey = true) (hready : env.aiReady = true)
    (himg : jsTruthy imageBase64 = true) :
    sendMessageToGemini env prompt imageBase64 history
      = ((runChat env prompt imageBase64 history).1,
         [(runChat env prompt imageBase64 history).2])
    ∧ ∀ c ∈ (sendMessageToGemini env prompt imageBase64 history).2,
        c = ProviderCall.chatGen modelName (builtContents prompt imageBase64 history) := by
  have h1 : sendMessageToGemini env prompt imageBase64 history
      = ((runChat env prompt imageBase64 history).1,
         [(runChat env prompt imageBase64 history).2]) := by
    simp [sendMessageToGemini, hkey, hready, himg]
  refine ⟨h1, ?_⟩
  rw [h1]
  intro c hc
  simp only [List.mem_singleton] at hc
  rw [hc, runChat_snd]

/-- Witness for C6: prompt "draw a cat" with an attached image still goes
to the conversational model. -/
theorem attachmentAlwaysConversational_witness :
    sendMessageToGemini envC6
        ("draw a cat".toList) (some ("data:image/png;base64,AAAA".toList)) []
      = ((runChat envC6
            ("draw a cat".toList) (some ("data:image/png;base64,AAAA".toList)) []).1,
         [(runChat envC6
            ("draw a cat".toList) (some ("data:image/png;base64,AAAA".toList)) []).2]) :=
  (attachmentAlwaysConversational envC6 ("draw a cat".toList)
    (some ("data:image/png;base64,AAAA".toList)) [] rfl rfl rfl).1

/-- C2: history flattening is order-preserving — the built entry list is
the image, in order, of the sub-sequence of turns yielding at least one
part; each entry's parts put the image part (for a truthy, non-generated
image) before the text part (for non-empty text); roles map
`user`→"user" and the assistant role (`MessageRole.model` in the code)
→"model"; and the current turn is always the last entry, with role
"user". -/
theorem historyFlatteningOrderPreserving (prompt : JStr) (imageBase64 : Option JStr)
    (history : List ChatMessage) :
    builtContents prompt imageBase64 history
      = ((history.filter (fun m => !(buildHistoryEntry m).parts.isEmpty)).map
          buildHistoryEntry) ++ [currentContent prompt imageBase64]
    ∧ (∀ m : ChatMessage, (buildHistoryEntry m).parts
        = (if jsTruthy m.image && !m.isGeneratedImage then
            [Part.inlineData ⟨stripDataUri (m.image.getD []), "image/jpeg".toList⟩]
          else [])
          ++ (if !m.text.isEmpty then [Part.text m.text] else []))
    ∧ (∀ m : ChatMessage, (buildHistoryEntry m).role
        = match m.role with
          | MessageRole.user => "user".toList
          | MessageRole.model => "model".toList)
    ∧ (builtContents prompt imageBase64 history).getLast?
        = some (currentContent prompt imageBase64)
    ∧ (currentContent prompt imageBase64).role = "user".toList := by
  refine ⟨?_, fun m => rfl, fun m => rfl, ?_, rfl⟩
  · unfold builtContents buildContents
    rw [filter_map_comm]
  · unfold builtContents
    exact List.getLast?_concat _

/-- C3: the failing conversational call's outcome is obtained by one pass
through the substring ladder, in priority order credential → 429 → 404 →
generic; a message containing "429" and no higher-priority substring
yields the quota-exceeded text verbatim. -/
theorem errorTranslationPriority (m : JStr) :
    (strHas ("API key".toList) m = true →
       translateError ⟨some m⟩ = invalidKeyMsg)
    ∧ (strHas ("API key".toList) m = false → strHas ("429".toList) m = true →
       translateError ⟨some m⟩ = quotaMsg)
    ∧ (strHas ("API key".toList) m = false → strHas ("429".toList) m = false →
       strHas ("404".toList) m = true → translateError ⟨some m⟩ = notFoundMsg)
    ∧ (strHas ("API key".toList) m = false → strHas ("429".toList) m = false →
       strHas ("404".toList) m = false → m.isEmpty = false →
       translateError ⟨some m⟩ = techErrMsg m)
    ∧ (∀ (env : Env) (prompt : JStr) (imageBase64 : Option JStr)
         (history : List ChatMessage) (e : JSError),
        env.chatResult = Except.error e →
        (runChat env prompt imageBase64 history).1 = ⟨translateError e, none⟩)
    ∧ strHas modelName notFoundMsg = true := by
  refine ⟨?_, ?_, ?_, ?_, ?_, by decide⟩
  · intro h
    have hne := strHas_ne_nil ("API key".toList) m (by decide) h
    simp only [translateError]
    split_ifs <;> simp_all
  · intro h1 h2
    have hne := strHas_ne_nil ("429".toList) m (by decide) h2
    simp only [translateError]
    split_ifs <;> simp_all
  · intro h1 h2 h3
    have hne := strHas_ne_nil ("404".toList) m (by decide) h3
    simp only [translateError]
    split_ifs <;> simp_all
  · intro h1 h2 h3 hne
    simp only [translateError]
    split_ifs <;> simp_all
  · intro env prompt imageBase64 history e h
    simp [runChat, h]

/-- Witness for C3: a rejection message containing "429" but no
higher-priority substring translates to the quota-exceeded text. -/
theorem errorTranslationPriority_witness :
    translateError ⟨some ("http 429 too many requests".toList)⟩ = quotaMsg :=
  (errorTranslationPriority ("http 429 too many requests".toList)).2.1
    (by decide) (by decide)

/-- C4: when the image-generation attempt fails, the error is swallowed
and `sendMessageToGemini` delivers exactly the conversational outcome,
after issuing the image-generation call and then the conversational call;
the conversational step never reads the image-generation result, so the
suppressed error cannot surface. -/
theorem imageGenFailureFallsThrough (env : Env) (prompt : JStr)
    (imageBase64 : Option JStr) (history : List ChatMessage) (g : JSError)
    (hkey : jsTruthy env.apiKey = true) (hready : env.aiReady = true)
    (hcls : (!jsTruthy imageBase64 && isImageGenerationRequest prompt) = true)
    (hgen : env.imageGenResult = Except.error g) :
    sendMessageToGemini env prompt imageBase64 history
      = ((runChat env prompt imageBase64 history).1,
         [ProviderCall.imageGen imageModelName [Part.text prompt],
          (runChat env prompt imageBase64 history).2])
    ∧ (∀ x : Except JSError GenResponse,
        runChat { env with imageGenResult := x } prompt imageBase64 history
          = runChat env prompt imageBase64 history) := by
  constructor
  · simp [sendMessageToGemini, hkey, hready, hcls, hgen]
  · intro x
    rfl

/-- Witness for C4: prompt "draw a cat", no attachment, failing image
call — the outcome is the conversational one, after both calls. -/
theorem imageGenFailureFallsThrough_witness :
    sendMessageToGemini envC6 ("draw a cat".toList) none []
      = ((runChat envC6 ("draw a cat".toList) none []).1,
         [ProviderCall.imageGen imageModelName [Part.text ("draw a cat".toList)],
          (runChat envC6 ("draw a cat".toList) none []).2]) :=
  (imageGenFailureFallsThrough envC6 ("draw a cat".toList) none [] ⟨none⟩
    rfl rfl (by decide) rfl).1

/-- The scan returns the part after a prefix of parts without usable
inline data, whatever comes later. -/
lemma firstInline_append_of_none (pre : List RespPart) (p : RespPart)
    (post : List RespPart) (data : JStr)
    (hpre : ∀ q ∈ pre, partImageData q = none)
    (hp : partImageData p = some data) :
    firstInline (pre ++ p :: post) = some data := by
  induction pre with
  | nil => simp [firstInline, hp]
  | cons a l ih =>
    have ha : partImageData a = none := hpre a (by simp)
    rw [List.cons_append, firstInline, ha]
    exact ih (fun q hq => hpre q (by simp [hq]))

/-- The scan finds nothing exactly when no part carries usable inline
data. -/
lemma firstInline_eq_none_iff (ps : List RespPart) :
    firstInline ps = none ↔ ∀ q ∈ ps, partImageData q = none := by
  induction ps with
  | nil => simp [firstInline]
  | cons p rest ih =>
    cases hp : partImageData p with
    | some d => simp [firstInline, hp]
    | none => simp [firstInline, hp, ih]

/-- C7: on a successful image-generation attempt the returned parts are
scanned in order — the first part with usable inline data becomes the
generated-image outcome with the fixed confirmation text and the
canonical PNG header; if the scan finds nothing but the response carries
truthy text, that text becomes the outcome. -/
theorem imageGenSuccessScanFirst (env : Env) (prompt : JStr)
    (imageBase64 : Option JStr) (history : List ChatMessage) (resp : GenResponse)
    (hkey : jsTruthy env.apiKey = true) (hready : env.aiReady = true)
    (hcls : (!jsTruthy imageBase64 && isImageGenerationRequest prompt) = true)
    (hok : env.imageGenResult = Except.ok resp) :
    (∀ data : JStr, genScan resp = some data →
      sendMessageToGemini env prompt imageBase64 history
        = (⟨imageConfirmMsg, some (pngHeader ++ data)⟩,
           [ProviderCall.imageGen imageModelName [Part.text prompt]]))
    ∧ (genScan resp = none → jsTruthy resp.text = true →
      sendMessageToGemini env prompt imageBase64 history
        = (⟨resp.text.getD [], none⟩,
           [ProviderCall.imageGen imageModelName [Part.text prompt]]))
    ∧ (∀ (pre : List RespPart) (p : RespPart) (post : List RespPart) (data : JStr),
        (∀ q ∈ pre, partImageData q = none) → partImageData p = some data →
        firstInline (pre ++ p :: post) = some data)
    ∧ (∀ ps : List RespPart,
        firstInline ps = none ↔ ∀ q ∈ ps, partImageData q = none) := by
  refine ⟨?_, ?_, firstInline_append_of_none, firstInline_eq_none_iff⟩
  · intro data h
    simp [sendMessageToGemini, hkey, hready, hcls, hok, h]
  · intro h ht
    simp [sendMessageToGemini, hkey, hready, hcls, hok, h, ht]

/-- Witness for C7: prompt "draw a cat" with a response carrying one
inline-image part yields the generated-image outcome. -/
theorem imageGenSuccessScanFirst_witness :
    sendMessageToGemini envC7 ("draw a cat".toList) none []
      = (⟨imageConfirmMsg, some (pngHeader ++ "IMG7".toList)⟩,
         [ProviderCall.imageGen imageModelName [Part.text ("draw a cat".toList)]]) :=
  (imageGenSuccessScanFirst envC7 ("draw a cat".toList) none [] respC7
    rfl rfl (by decide) rfl).1 ("IMG7".toList) rfl

/-- C8: a history turn whose image is flagged as provider-generated
contributes no inline-image part; with empty text it yields zero parts
and its entry is dropped from the built request. -/
theorem generatedImageNotResent (m : ChatMessage)
    (hgen : m.isGeneratedImage = true) :
    (∀ p ∈ (buildHistoryEntry m).parts, ∀ d : InlineData, p ≠ Part.inlineData d)
    ∧ (m.text = [] →
        (buildHistoryEntry m).parts = []
        ∧ ∀ h1 h2 : List ChatMessage,
            buildContents (h1 ++ m :: h2) = buildContents (h1 ++ h2)) := by
  have hparts : (buildHistoryEntry m).parts
      = if !m.text.isEmpty then [Part.text m.text] else [] := by
    simp [buildHistoryEntry, hgen]
  constructor
  · intro p hp d
    rw [hparts] at hp
    split at hp <;> simp_all
  · intro ht
    have hemp : (buildHistoryEntry m).parts = [] := by
      rw [hparts, ht]
      rfl
    refine ⟨hemp, fun h1 h2 => ?_⟩
    unfold buildContents
    simp [List.filter_append, List.filter_cons, hemp]

/-- Witness for C8: a generated-image turn with empty text yields zero
parts, and inserting it into a history leaves the built request
unchanged. -/
theorem generatedImageNotResent_witness :
    (buildHistoryEntry msgC8).parts = []
    ∧ buildContents ([] ++ msgC8 :: []) = buildContents ([] ++ []) :=
  ⟨((generatedImageNotResent msgC8 rfl).2 rfl).1,
   ((generatedImageNotResent msgC8 rfl).2 rfl).2 [] []⟩

/-- An inline-image part occurring in a flattened history entry always
declares media type `image/jpeg`. -/
lemma entry_parts_inline (m : ChatMessage) (d : InlineData)
    (h : Part.inlineData d ∈ (buildHistoryEntry m).parts) :
    d.mimeType = "image/jpeg".toList := by
  simp only [buildHistoryEntry] at h
  rcases List.mem_append.mp h with h | h <;> split at h <;> simp_all

/-- An inline-image part occurring in the current turn's entry always
declares media type `image/jpeg`. -/
lemma current_parts_inline (prompt : JStr) (imageBase64 : Option JStr)
    (d : InlineData)
    (h : Part.inlineData d ∈ (currentContent prompt imageBase64).parts) :
    d.mimeType = "image/jpeg".toList := by
  simp only [currentContent] at h
  rcases List.mem_append.mp h with h | h
  · split at h <;> simp_all
  · simp_all

/-- Counterexample to C9 as stated: the stripping regex only matches the
types png, jpeg, jpg and webp, so a `data:image/gif;base64,` header is
not stripped — the encoded string is handed over unchanged rather than as
raw bytes. -/
theorem dataUriStripGifCounterexample :
    stripDataUri ("data:image/gif;base64,AAAA".toList)
      = ("data:image/gif;base64,AAAA".toList)
    ∧ ("data:image/gif;base64,AAAA".toList) ≠ ("AAAA".toList) :=
  ⟨rfl, by decide⟩

/-- C9 (amended): the core strips the `data:image/<type>;base64,` header
for exactly the types png, jpeg, jpg and webp, passing any other header
through unchanged; a provider-generated image is surfaced with the
canonical `data:image/png;base64,` header re-added. -/
theorem dataUriStripKnownTypesRoundTrip (body : JStr) :
    stripDataUri ("data:image/png;base64,".toList ++ body) = body
    ∧ stripDataUri ("data:image/jpeg;base64,".toList ++ body) = body
    ∧ stripDataUri ("data:image/jpg;base64,".toList ++ body) = body
    ∧ stripDataUri ("data:image/webp;base64,".toList ++ body) = body
    ∧ stripDataUri ("data:image/gif;base64,".toList ++ body)
       = "data:image/gif;base64,".toList ++ body
    ∧ (∀ (data : JStr) (env : Env) (prompt : JStr) (history : List ChatMessage)
         (resp : GenResponse),
        jsTruthy env.apiKey = true → env.aiReady = true →
        isImageGenerationRequest prompt = true →
        env.imageGenResult = Except.ok resp → genScan resp = some data →
        (sendMessageToGemini env prompt none history).1.generatedImage
          = some (pngHeader ++ data)) := by
  refine ⟨rfl, rfl, rfl, rfl, rfl, ?_⟩
  intro data env prompt history resp hkey hready hcls hok hscan
  have hatt : (!jsTruthy (none : Option JStr) && isImageGenerationRequest prompt)
      = true := by
    simp [jsTruthy, hcls]
  simp [sendMessageToGemini, hkey, hready, hatt, hok, hscan]

/-- Witness for C9 (amended): a PNG data URI round-trips, and a generated
image surfaces with the canonical PNG header. -/
theorem dataUriStripKnownTypesRoundTrip_witness :
    stripDataUri ("data:image/png;base64,".toList ++ "QUJD".toList) = "QUJD".toList
    ∧ (sendMessageToGemini envC9 ("draw a cat".toList) none []).1.generatedImage
        = some (pngHeader ++ "IMG9".toList) :=
  ⟨(dataUriStripKnownTypesRoundTrip ("QUJD".toList)).1,
   (dataUriStripKnownTypesRoundTrip []).2.2.2.2.2 ("IMG9".toList) envC9
     ("draw a cat".toList) [] respC9 rfl rfl (by decide) rfl rfl⟩

/-- C10: every inline-image part of the conversational request — from a
history turn or from the current attachment — declares media type
`image/jpeg`, whatever the encoded image's actual type. -/
theorem conversationalInlineJpeg (prompt : JStr) (imageBase64 : Option JStr)
    (history : List ChatMessage) :
    ∀ c ∈ builtContents prompt imageBase64 history,
      ∀ p ∈ c.parts, ∀ d : InlineData,
        p = Part.inlineData d → d.mimeType = "image/jpeg".toList := by
  intro c hc p hp d hpd
  subst hpd
  unfold builtContents at hc
  rcases List.mem_append.mp hc with hc | hc
  · unfold buildContents at hc
    have hc' := List.mem_of_mem_filter hc
    rcases List.mem_map.mp hc' with ⟨m, _, rfl⟩
    exact entry_parts_inline m d hp
  · simp only [List.mem_singleton] at hc
    subst hc
    exact current_parts_inline prompt imageBase64 d hp

/-- Witness for C10: a PNG upload in the history is still declared as
`image/jpeg` in the built request. -/
theorem conversationalInlineJpeg_witness :
    (⟨"AAAA".toList, "image/jpeg".toList⟩ : InlineData).mimeType
      = "image/jpeg".toList :=
  conversationalInlineJpeg ("hi".toList) none [msgC10]
    (buildHistoryEntry msgC10) (by decide)
    (Part.inlineData ⟨"AAAA".toList, "image/jpeg".toList⟩) (by decide)
    ⟨"AAAA".toList, "image/jpeg".toList⟩ rfl

end GeminiService
